import Mathlib

/-!
Verification of the neo-gear geometry engine and mesh repair pipeline.

The development shallowly embeds the relevant source functions:

* `calculateGearGeometryValues` — the derived gear dimension snapshot
  (src/pages/+onRenderHtml.tsx, `calculateGearGeometryValues`), over `ℝ`
  since it uses `Math.cos`.
* `generateGearGeometry` — the solid-construction pipeline
  (src/pages/+onRenderHtml.tsx, `generateGearGeometry`).  The 2D tooth
  profile and the extruded solid are kept symbolic (the `Geometry` tree
  records which construction steps ran with which dimensions); the fallible
  native steps (extrusion, CSG subtraction) are abstracted by a
  `FailureOracle` saying which native call throws.
* `gearMeshGeometry` — the caller-side try/catch around
  `generateGearGeometry` in the `GearMesh` component, which substitutes a
  pitch-radius cylinder on any exception.
* `twistVertex` / `applyHelixTwist` — the per-vertex helix transformation.
* `repairMesh` — the mesh repair worker (src/workers/meshlib.worker.ts):
  the contractual message stream (progress / complete / error; diagnostic
  log messages are omitted), the native objects it creates and deletes, and
  the set of boundary loops passed to the hole-filling call.  Engine
  behaviour (hole perimeters, rebuild results, rebuild progress reports) is
  an explicit input `RepairInput`.
* `extractMeshData` and `createBinarySTL` — buffer extraction and the
  binary STL layout (src/utils/exportUtils.ts); the IEEE-754 float32 byte
  encoding is an explicit parameter `enc`, since only the layout is claimed.
-/

/-! ## Gear parameters (src/types/gear.types.ts) -/

inductive HoleType where
  | none
  | round
  | keyed
  | dShaft
  | hex
  | square
deriving DecidableEq, Repr

structure GearParams where
  teethCount : ℕ
  module : ℚ
  rootDiameter : ℚ
  outerDiameter : ℚ
  pressureAngle : ℚ
  backlash : ℚ
  clearance : ℚ
  boreDiameter : ℚ
  holeType : HoleType
  keyWidth : ℚ
  keyDepthRatio : ℚ
  keyDepth : ℚ
  dShaftFlatDepth : ℚ
  thickness : ℚ
  helixAngle : ℚ
  profileShift : ℚ
deriving DecidableEq, Repr

/-- `DEFAULT_GEAR_PARAMS` from src/types/gear.types.ts. -/
def defaultGearParams : GearParams where
  teethCount := 32
  module := 2
  rootDiameter := 59
  outerDiameter := 68
  pressureAngle := 20
  backlash := 1/10
  clearance := 1/4
  boreDiameter := 8
  holeType := HoleType.round
  keyWidth := 2
  keyDepthRatio := 1/2
  keyDepth := 0
  dShaftFlatDepth := 3/20
  thickness := 10
  helixAngle := 0
  profileShift := 0

/-! ## Derived geometry values (`calculateGearGeometryValues`) -/

structure GearGeoValues where
  pitchRadius : ℝ
  baseRadius : ℝ
  outerRadius : ℝ
  rootRadius : ℝ
  boreRadius : ℝ
  pitchDiameter : ℝ
  baseDiameter : ℝ
  outerDiameter : ℝ
  rootDiameter : ℝ
  addendum : ℝ
  dedendum : ℝ
  toothHeight : ℝ
  circularPitch : ℝ
  pressureAngle : ℝ
  thickness : ℝ

/-- Embedding of `calculateGearGeometryValues` (single source of truth for
gear dimensions), translated line by line from the source. -/
noncomputable def calculateGearGeometryValues (p : GearParams) : GearGeoValues :=
  let pressureAngle : ℝ := (p.pressureAngle : ℝ) * Real.pi / 180
  let pitchRadius : ℝ := (p.module : ℝ) * (p.teethCount : ℝ) / 2
  let pitchDiameter : ℝ := (p.module : ℝ) * (p.teethCount : ℝ)
  let baseRadius : ℝ := pitchRadius * Real.cos pressureAngle
  let baseDiameter : ℝ := baseRadius * 2
  let addendum : ℝ := (p.module : ℝ) * (1 + (p.profileShift : ℝ))
  let dedendum : ℝ := (p.module : ℝ) * (1.25 + (p.clearance : ℝ) - (p.profileShift : ℝ))
  let outerRadius : ℝ := pitchRadius + addendum
  let outerDiameter : ℝ := outerRadius * 2
  let rootRadius : ℝ := max (pitchRadius - dedendum) (baseRadius * 0.95)
  let rootDiameter : ℝ := rootRadius * 2
  let toothHeight : ℝ := addendum + dedendum
  let circularPitch : ℝ := Real.pi * (p.module : ℝ)
  let boreRadius : ℝ := (p.boreDiameter : ℝ) / 2
  { pitchRadius := pitchRadius
    baseRadius := baseRadius
    outerRadius := outerRadius
    rootRadius := rootRadius
    boreRadius := boreRadius
    pitchDiameter := pitchDiameter
    baseDiameter := baseDiameter
    outerDiameter := outerDiameter
    rootDiameter := rootDiameter
    addendum := addendum
    dedendum := dedendum
    toothHeight := toothHeight
    circularPitch := circularPitch
    pressureAngle := pressureAngle
    thickness := (p.thickness : ℝ) }

/-! ## Solid construction (`generateGearGeometry`) -/

/-- Shapes of the hole primitive built by `createMainHoleGeometry` and the
keyway box built by `createKeywayGeometry`.  Each constructor records the
dimensions the source passes to the corresponding THREE.js constructor
(`cylinderHole r h segs` is `CylinderGeometry(r, r, h, segs)`; for the
square variant the source passes circumradius `sideLength / sqrt 2`, and we
record the rational `sideLength` itself; the d-shaft variant records the
bore radius and flat ratio driving the chord construction). -/
inductive HoleGeom where
  | cylinderHole (radius height : ℚ) (segments : ℕ)
  | dShaftHole (radius flatRatio height : ℚ)
  | hexHole (hexRadius height : ℚ)
  | squareHole (sideLength height : ℚ)
  | keywayBox (width boxDepth height centerY : ℚ)
deriving DecidableEq, Repr

/-- Embedding of `createMainHoleGeometry`: dispatch on the hole variant. -/
def createMainHoleGeometry (p : GearParams) : HoleGeom :=
  let radius := p.boreDiameter / 2
  let height := p.thickness + 2
  match p.holeType with
  | HoleType.round => HoleGeom.cylinderHole radius height 64
  | HoleType.keyed => HoleGeom.cylinderHole radius height 64
  | HoleType.dShaft => HoleGeom.dShaftHole radius p.dShaftFlatDepth height
  | HoleType.hex => HoleGeom.hexHole (radius * (95/100)) height
  | HoleType.square => HoleGeom.squareHole (radius * (14/10)) height
  | HoleType.none => HoleGeom.cylinderHole radius height 64

/-- Embedding of `createKeywayGeometry`: keyway slot dimensions, including
the fallback to standard proportions when width/depth are unset. -/
def createKeywayGeometry (p : GearParams) : HoleGeom :=
  let diameter := p.boreDiameter
  let radius := diameter / 2
  let height := p.thickness + 2
  let keyWidth := if 0 < p.keyWidth then p.keyWidth else diameter / 4
  let keyDepth := if 0 < p.keyDepth then p.keyDepth else keyWidth * p.keyDepthRatio
  let boxDepth := keyDepth + radius
  let keyCenterY := (radius + keyDepth) / 2
  HoleGeom.keywayBox keyWidth boxDepth height keyCenterY

/-- Symbolic solid produced by `generateGearGeometry`: which construction
steps ran, with which dimensions.  `extruded p depth steps` stands for the
extrusion of the tooth profile `createGearShape p`; `cylinder` matches
`THREE.CylinderGeometry(radiusTop, radiusBottom, height, segments)`. -/
inductive Geometry where
  | extruded (p : GearParams) (depth : ℚ) (steps : ℕ)
  | twisted (g : Geometry) (helixAngleDeg : ℚ)
  | subtracted (g : Geometry) (hole : HoleGeom)
  | cylinder (radiusTop radiusBottom height : ℚ) (segments : ℕ)
deriving DecidableEq, Repr

inductive GeomError where
  | invalidGeometryInput
  | booleanFailure
deriving DecidableEq, Repr

/-- Which fallible native geometry calls throw.  The source itself has no
try/catch: an exception in extrusion or in either CSG subtraction escapes
`generateGearGeometry`. -/
structure FailureOracle where
  extrudeFails : Bool
  holeSubtractFails : Bool
  keySubtractFails : Bool
deriving DecidableEq, Repr

def noFailure : FailureOracle := ⟨false, false, false⟩

/-- Embedding of `generateGearGeometry`.  Mirrors the source control flow:
extrude the profile (step count doubles the thickness when helical), apply
the helix twist when `helixAngle ≠ 0`, then — when a bore is requested and
`boreDiameter < rootRadius * 1.9` for the locally recomputed
`rootRadius = max(pitchRadius − (1.25+clearance)·module, module·0.5)` —
subtract the hole primitive, and for the keyed variant also the keyway box.
Exceptions of the native steps (per the oracle) propagate: there is no
try/catch in this function. -/
def generateGearGeometry (oc : FailureOracle) (p : GearParams) :
    Except GeomError Geometry :=
  if oc.extrudeFails then Except.error GeomError.invalidGeometryInput else
  let steps : ℕ := if p.helixAngle ≠ 0 then (⌈p.thickness * 2⌉).toNat else 1
  let g0 := Geometry.extruded p p.thickness steps
  let g1 := if p.helixAngle ≠ 0 then Geometry.twisted g0 p.helixAngle else g0
  if p.holeType ≠ HoleType.none ∧ 0 < p.boreDiameter then
    let pitchRadius := p.module * (p.teethCount : ℚ) / 2
    let rootRadius := max (pitchRadius - (125/100 + p.clearance) * p.module)
      (p.module * (1/2))
    if p.boreDiameter < rootRadius * (19/10) then
      if oc.holeSubtractFails then Except.error GeomError.booleanFailure else
      let g2 := Geometry.subtracted g1 (createMainHoleGeometry p)
      if p.holeType = HoleType.keyed then
        if oc.keySubtractFails then Except.error GeomError.booleanFailure
        else Except.ok (Geometry.subtracted g2 (createKeywayGeometry p))
      else Except.ok g2
    else Except.ok g1
  else Except.ok g1

/-- Embedding of the `GearMesh` component's geometry memo
(src/components/GearMesh.tsx): `try { generateGearGeometry(params) }
catch { CylinderGeometry(m·t/2, m·t/2, thickness, 64) }`. -/
def gearMeshGeometry (oc : FailureOracle) (p : GearParams) : Geometry :=
  match generateGearGeometry oc p with
  | Except.ok g => g
  | Except.error _ =>
      Geometry.cylinder (p.module * (p.teethCount : ℚ) / 2)
        (p.module * (p.teethCount : ℚ) / 2) p.thickness 64

/-- Whether a CSG subtraction node occurs in the constructed solid. -/
def containsSubtraction : Geometry → Bool
  | Geometry.subtracted _ _ => true
  | Geometry.twisted g _ => containsSubtraction g
  | Geometry.extruded _ _ _ => false
  | Geometry.cylinder _ _ _ _ => false

/-- `containsSubtraction` through the exception layer (an escaped exception
produced no solid at all). -/
def containsSubtractionE : Except GeomError Geometry → Bool
  | Except.ok g => containsSubtraction g
  | Except.error _ => false

/-- The inline root radius recomputed by `generateGearGeometry` for the
bore-fit check (it ignores `profileShift` and uses a `module·0.5` floor,
unlike `calculateGearGeometryValues`). -/
def holeCheckRootRadius (p : GearParams) : ℚ :=
  max (p.module * (p.teethCount : ℚ) / 2 - (125/100 + p.clearance) * p.module)
    (p.module * (1/2))

/-! ## Helix twist (`generateGearGeometry`, vertex loop) -/

/-- Per-vertex helix rotation: `twist = z * (helixAngle·π/180 / thickness)`,
rotation of `(x, y)` by `twist`, `z` unchanged. -/
noncomputable def twistVertex (helixAngleDeg thickness : ℝ) (v : ℝ × ℝ × ℝ) :
    ℝ × ℝ × ℝ :=
  let twistPerUnit := helixAngleDeg * Real.pi / 180 / thickness
  let twist := v.2.2 * twistPerUnit
  (v.1 * Real.cos twist - v.2.1 * Real.sin twist,
   v.1 * Real.sin twist + v.2.1 * Real.cos twist,
   v.2.2)

/-- The vertex-buffer pass of `generateGearGeometry`: the twist loop runs
only when `helixAngle ≠ 0`. -/
noncomputable def applyHelixTwist (helixAngleDeg thickness : ℝ)
    (verts : List (ℝ × ℝ × ℝ)) : List (ℝ × ℝ × ℝ) :=
  if helixAngleDeg ≠ 0 then verts.map (twistVertex helixAngleDeg thickness)
  else verts

/-! ## Mesh repair worker (`repairMesh`, src/workers/meshlib.worker.ts) -/

/-- A contractual worker message: progress, completion, or error.
Diagnostic `log` messages are omitted (the spec marks them non-contractual). -/
inductive Msg where
  | progressMsg (stage : String) (value : ℚ)
  | completeMsg
  | errorMsg (message : String)
deriving DecidableEq, Repr

/-- Result of one `sdk.rebuildMesh` call: the `hasError()` flag and the
value its `error()` accessor returns. -/
structure RebuildResult where
  hasError : Bool
  errMsg : String
deriving DecidableEq, Repr

/-- The native MeshLib objects the worker creates and must `delete()`. -/
inductive NativeObj where
  | originalMesh
  | holeEdges
  | edgeVec
  | fillParams
  | rebuildSettings1
  | progressCb1
  | meshPart1
  | pass1Mesh
  | rebuildSettings2
  | progressCb2
  | meshPart2
  | finalMesh
deriving DecidableEq, Repr

instance : Fintype NativeObj :=
  ⟨⟨{NativeObj.originalMesh, NativeObj.holeEdges, NativeObj.edgeVec,
     NativeObj.fillParams, NativeObj.rebuildSettings1, NativeObj.progressCb1,
     NativeObj.meshPart1, NativeObj.pass1Mesh, NativeObj.rebuildSettings2,
     NativeObj.progressCb2, NativeObj.meshPart2, NativeObj.finalMesh}, by decide⟩,
   by intro x; cases x <;> decide⟩

/-- Engine-side behaviour of one repair run: perimeters of the boundary
loops `findHoleRepresentiveEdges` reports, the mesh's average edge length,
the fractional progress values each rebuild pass reports to its callback,
and the two rebuild results. -/
structure RepairInput where
  holePerimeters : List ℚ
  avgEdgeLength : ℚ
  pass1Progress : List ℚ
  pass2Progress : List ℚ
  result1 : RebuildResult
  result2 : RebuildResult

/-- Pass-1 progress remapping (the `progressCallback1` closure):
`progress < 0.5 ↦ progress·80`, otherwise `40 + progress·10`. -/
def pass1Percent (q : ℚ) : ℚ :=
  if q < 1/2 then q * 80 else 40 + q * 10

/-- Pass-2 progress remapping (the `progressCallback2` closure):
`50 + progress·45`. -/
def pass2Percent (q : ℚ) : ℚ :=
  50 + q * 45

/-- The boundary loops selected for filling: perimeter strictly below
`maxHolePerimeter = avgEdgeLength * 3.0`. -/
def smallHolesOf (inp : RepairInput) : List ℚ :=
  inp.holePerimeters.filter (fun q => q < inp.avgEdgeLength * 3)

/-- Observable trace of one `repairMesh` run: the contractual messages in
emission order, the native objects created, the native objects whose
`delete()` ran, and the loops passed to `sdk.fillHoles`. -/
structure RepairTrace where
  events : List Msg
  created : List NativeObj
  deleted : List NativeObj
  filled : List ℚ
deriving DecidableEq, Repr

/-- Embedding of `repairMesh`, following the source's straight-line order.
The hole-edge collection is created unconditionally; `edgeVec`/`holeEdges`
are deleted only inside the `holeCount > 0` branch; a rebuild error throws
before the deletes that follow it, and the surrounding catch turns the
thrown message into a single error event.  The pass-2 error branch
faithfully reproduces the source's use of `rebuildResult1.error()`
(line `throw new Error(\x60Rebuild failed: $\x7brebuildResult1.error()\x7d\x60)`
in the `rebuildResult2.hasError()` check). -/
def repairMesh (inp : RepairInput) : RepairTrace :=
  let holeCount := inp.holePerimeters.length
  let smallHoles := smallHolesOf inp
  let msgsPre : List Msg :=
    [Msg.progressMsg "Initializing MeshLib..." 0,
     Msg.progressMsg "Converting geometry..." 5,
     Msg.progressMsg "Finding holes..." 10] ++
    (if 0 < holeCount ∧ 0 < smallHoles.length
      then [Msg.progressMsg "Filling holes..." 15] else []) ++
    [Msg.progressMsg "Preparing rebuild..." 20]
  let createdPre : List NativeObj :=
    [NativeObj.originalMesh, NativeObj.holeEdges] ++
    (if 0 < holeCount then
      [NativeObj.edgeVec] ++
      (if 0 < smallHoles.length then [NativeObj.fillParams] else [])
     else [])
  let deletedPre : List NativeObj :=
    if 0 < holeCount then
      (if 0 < smallHoles.length then [NativeObj.fillParams] else []) ++
      [NativeObj.edgeVec, NativeObj.holeEdges]
    else []
  let filled : List ℚ :=
    if 0 < holeCount ∧ 0 < smallHoles.length then smallHoles else []
  let created1 := createdPre ++
    [NativeObj.rebuildSettings1, NativeObj.progressCb1, NativeObj.meshPart1]
  let msgs1 := msgsPre ++
    inp.pass1Progress.map
      (fun q => Msg.progressMsg "Making your model watertight" (pass1Percent q))
  if inp.result1.hasError then
    { events := msgs1 ++
        [Msg.errorMsg ("Rebuild failed: " ++ inp.result1.errMsg)]
      created := created1
      deleted := deletedPre
      filled := filled }
  else
    let created2 := created1 ++ [NativeObj.pass1Mesh]
    let deleted2 := deletedPre ++
      [NativeObj.progressCb1, NativeObj.rebuildSettings1, NativeObj.meshPart1,
       NativeObj.originalMesh]
    let created3 := created2 ++
      [NativeObj.rebuildSettings2, NativeObj.progressCb2, NativeObj.meshPart2]
    let msgs2 := msgs1 ++
      inp.pass2Progress.map
        (fun q =>
          Msg.progressMsg "Fixing self-intersections and optimizng mesh"
            (pass2Percent q))
    if inp.result2.hasError then
      { events := msgs2 ++
          [Msg.errorMsg ("Rebuild failed: " ++ inp.result1.errMsg)]
        created := created3
        deleted := deleted2
        filled := filled }
    else
      { events := msgs2 ++
          [Msg.progressMsg "Preparing for download" 95, Msg.completeMsg]
        created := created3 ++ [NativeObj.finalMesh]
        deleted := deleted2 ++
          [NativeObj.progressCb2, NativeObj.rebuildSettings2,
           NativeObj.meshPart2, NativeObj.pass1Mesh, NativeObj.finalMesh]
        filled := filled }

/-- The progress values of a message stream, in order. -/
def progressValues (l : List Msg) : List ℚ :=
  l.filterMap fun m =>
    match m with
    | Msg.progressMsg _ v => some v
    | _ => none

/-! ## Buffer extraction and binary STL layout -/

/-- A repaired MeshLib mesh as seen by `extractMeshData`: its point
container and its triangle-vertex-index container. -/
structure MLMesh where
  points : List (ℝ × ℝ × ℝ)
  tris : List (ℕ × ℕ × ℕ)

/-- Embedding of `extractMeshData`: walk the point container into a flat
vertex buffer and the triangle container into a flat index buffer. -/
def extractMeshData (m : MLMesh) : List ℝ × List ℕ :=
  (m.points.flatMap (fun v => [v.1, v.2.1, v.2.2]),
   m.tris.flatMap (fun t => [t.1, t.2.1, t.2.2]))

/-- Little-endian uint32 bytes, as written by `view.setUint32(…, true)`. -/
def u32le (n : ℕ) : List ℕ :=
  [n % 256, n / 256 % 256, n / 2 ^ 16 % 256, n / 2 ^ 24 % 256]

/-- The 80-byte STL header: the fixed header string's bytes (60 of them)
padded with zeros to 80 (the `ArrayBuffer` is zero-initialized and only
`min(80, headerBytes.length)` bytes are written). -/
def headerSection : List ℕ :=
  (("Binary STL created by Gear FTL Generator with MeshLib repair").toList.map
    Char.toNat) ++ List.replicate 20 0

/-- Four little-endian bytes of one float32 write, via the abstract
encoding `enc`. -/
def f32bytes (enc : ℝ → Fin 4 → ℕ) (x : ℝ) : List ℕ :=
  [enc x 0, enc x 1, enc x 2, enc x 3]

/-- The normalized triangle normal computed by `createBinarySTL` via cross
product, with the zero-length guard. -/
noncomputable def stlNormal (v0 v1 v2 : ℝ × ℝ × ℝ) : ℝ × ℝ × ℝ :=
  let e1 := (v1.1 - v0.1, v1.2.1 - v0.2.1, v1.2.2 - v0.2.2)
  let e2 := (v2.1 - v0.1, v2.2.1 - v0.2.1, v2.2.2 - v0.2.2)
  let n := (e1.2.1 * e2.2.2 - e1.2.2 * e2.2.1,
            e1.2.2 * e2.1 - e1.1 * e2.2.2,
            e1.1 * e2.2.1 - e1.2.1 * e2.1)
  let len := Real.sqrt (n.1 * n.1 + n.2.1 * n.2.1 + n.2.2 * n.2.2)
  if 0 < len then (n.1 / len, n.2.1 / len, n.2.2 / len) else n

/-- Read vertex `i` from the flat vertex buffer (out-of-range reads of a
typed array yield `undefined`; values are irrelevant to the layout). -/
def vertexAt (vertices : List ℝ) (i : ℕ) : ℝ × ℝ × ℝ :=
  (vertices.getD (i * 3) 0, vertices.getD (i * 3 + 1) 0,
   vertices.getD (i * 3 + 2) 0)

/-- The 50-byte record `createBinarySTL` writes for triangle `i`:
normal, three vertices, and the 2-byte attribute field written as
`setUint16(offset, 0)`. -/
noncomputable def triRecord (enc : ℝ → Fin 4 → ℕ) (vertices : List ℝ)
    (indices : List ℕ) (i : ℕ) : List ℕ :=
  let v0 := vertexAt vertices (indices.getD (i * 3) 0)
  let v1 := vertexAt vertices (indices.getD (i * 3 + 1) 0)
  let v2 := vertexAt vertices (indices.getD (i * 3 + 2) 0)
  let n := stlNormal v0 v1 v2
  f32bytes enc n.1 ++ f32bytes enc n.2.1 ++ f32bytes enc n.2.2 ++
  f32bytes enc v0.1 ++ f32bytes enc v0.2.1 ++ f32bytes enc v0.2.2 ++
  f32bytes enc v1.1 ++ f32bytes enc v1.2.1 ++ f32bytes enc v1.2.2 ++
  f32bytes enc v2.1 ++ f32bytes enc v2.2.1 ++ f32bytes enc v2.2.2 ++
  [0, 0]

/-- Embedding of `createBinarySTL`: 80-byte header, little-endian triangle
count (`triangleCount = indices.length / 3`), then one 50-byte record per
triangle. -/
noncomputable def createBinarySTL (enc : ℝ → Fin 4 → ℕ) (vertices : List ℝ)
    (indices : List ℕ) : List ℕ :=
  let triangleCount := indices.length / 3
  headerSection ++ u32le triangleCount ++
  ((List.range triangleCount).map (triRecord enc vertices indices)).flatten

/-! ## Concrete inputs used by counterexamples and witnesses -/

/-- Oracle in which the profile extrusion throws (degenerate polygon). -/
def extrudeFailOracle : FailureOracle := ⟨true, false, false⟩

/-- Boundary parameter set for the bore-fit policy: `teeth = 20`,
`module = 1`, `pressureAngle = 30°`, `clearance = 0.25`, `profileShift = 0`
give root radius `8.5`; the bore is exactly `1.9 × 8.5 = 16.15`. -/
def cx3Params : GearParams where
  teethCount := 20
  module := 1
  rootDiameter := 17
  outerDiameter := 22
  pressureAngle := 30
  backlash := 0
  clearance := 1/4
  boreDiameter := 323/20
  holeType := HoleType.round
  keyWidth := 2
  keyDepthRatio := 1/2
  keyDepth := 0
  dShaftFlatDepth := 3/20
  thickness := 10
  helixAngle := 0
  profileShift := 0

/-- The default parameter set with the documented minimum profile shift. -/
def cx6Params : GearParams :=
  { defaultGearParams with profileShift := -1 }

/-- Hole-free successful repair whose pass-1 engine reports start at 0.1. -/
def cx2Input : RepairInput where
  holePerimeters := []
  avgEdgeLength := 1
  pass1Progress := [1/10]
  pass2Progress := [1]
  result1 := ⟨false, ""⟩
  result2 := ⟨false, ""⟩

/-- Repair in which pass 1 succeeds and pass 2 reports an internal error. -/
def cx4Input : RepairInput where
  holePerimeters := []
  avgEdgeLength := 1
  pass1Progress := []
  pass2Progress := []
  result1 := ⟨false, "pass1 stale value"⟩
  result2 := ⟨true, "voxel overflow"⟩

/-- Fully successful repair of a mesh with no boundary loops. -/
def cx8Input : RepairInput where
  holePerimeters := []
  avgEdgeLength := 1
  pass1Progress := []
  pass2Progress := []
  result1 := ⟨false, ""⟩
  result2 := ⟨false, ""⟩

/-- Successful repair with one small boundary loop. -/
def wit8Input : RepairInput where
  holePerimeters := [1]
  avgEdgeLength := 1
  pass1Progress := []
  pass2Progress := []
  result1 := ⟨false, ""⟩
  result2 := ⟨false, ""⟩

/-- Repair of a mesh with loops of perimeter `0.5×avg` and `5×avg`
(`avg = 2`). -/
def wit5Input : RepairInput where
  holePerimeters := [1, 10]
  avgEdgeLength := 2
  pass1Progress := []
  pass2Progress := []
  result1 := ⟨false, ""⟩
  result2 := ⟨false, ""⟩

/-- Successful repair with well-behaved engine progress reports. -/
def wit2Input : RepairInput where
  holePerimeters := [1/2, 10]
  avgEdgeLength := 1
  pass1Progress := [1/4, 1/2, 1]
  pass2Progress := [0, 1]
  result1 := ⟨false, ""⟩
  result2 := ⟨false, ""⟩

/-- A three-vertex, one-triangle repaired mesh. -/
def witMesh : MLMesh where
  points := [(0, 0, 0), (1, 0, 0), (0, 1, 0)]
  tris := [(0, 1, 2)]

/-- A trivial stand-in float32 byte encoding (the layout claims do not
depend on the encoding). -/
def zeroEnc : ℝ → Fin 4 → ℕ := fun _ _ => 0

/-! ## Helper lemmas -/

lemma getD_map_of_fixed {α : Type} (f : α → α) (d : α) (hf : f d = d) :
    ∀ (l : List α) (i : ℕ), (l.map f).getD i d = f (l.getD i d) := by
  intro l
  induction l with
  | nil => intro i; simp [hf]
  | cons a t ih =>
    intro i
    cases i with
    | zero => simp
    | succ j => simpa using ih j

lemma twistVertex_zero_fixed (a th : ℝ) : twistVertex a th (0, 0, 0) = (0, 0, 0) := by
  simp [twistVertex]

lemma twistVertex_z (a th : ℝ) (v : ℝ × ℝ × ℝ) :
    (twistVertex a th v).2.2 = v.2.2 := rfl

lemma twistVertex_sq (a th : ℝ) (v : ℝ × ℝ × ℝ) :
    (twistVertex a th v).1 ^ 2 + (twistVertex a th v).2.1 ^ 2 =
      v.1 ^ 2 + v.2.1 ^ 2 := by
  simp only [twistVertex]
  have h := Real.sin_sq_add_cos_sq (v.2.2 * (a * Real.pi / 180 / th))
  linear_combination (v.1 ^ 2 + v.2.1 ^ 2) * h

/-! ## Claim theorems -/

/-- Claim C7 (confirmed): the pass-1 progress remapping sends engine
progress in `[0, 0.5)` into `[0, 40)` and engine progress in `[0.5, 1]`
into `[40, 50]`. -/
theorem pass1Percent_bands (q : ℚ) (h0 : 0 ≤ q) (h1 : q ≤ 1) :
    (q < 1/2 → 0 ≤ pass1Percent q ∧ pass1Percent q < 40) ∧
    (1/2 ≤ q → 40 ≤ pass1Percent q ∧ pass1Percent q ≤ 50) := by
  constructor
  · intro hq
    rw [pass1Percent, if_pos hq]
    constructor <;> nlinarith
  · intro hq
    rw [pass1Percent, if_neg (not_lt.mpr hq)]
    constructor <;> nlinarith

/-- Witness for C7 at engine progress `3/4`. -/
theorem pass1Percent_bands_witness :
    ((3/4 : ℚ) < 1/2 → 0 ≤ pass1Percent (3/4) ∧ pass1Percent (3/4) < 40) ∧
    ((1/2 : ℚ) ≤ 3/4 → 40 ≤ pass1Percent (3/4) ∧ pass1Percent (3/4) ≤ 50) :=
  pass1Percent_bands (3/4) (by norm_num) (by norm_num)

/-- Claim C10 (confirmed): the helix twist leaves every vertex's `z`
coordinate and squared distance to the extrusion axis unchanged, and is the
identity when `helixAngle = 0`. -/
theorem helixTwist_rotation (a th : ℝ) (vs : List (ℝ × ℝ × ℝ)) :
    (a = 0 → applyHelixTwist a th vs = vs) ∧
    (applyHelixTwist a th vs).length = vs.length ∧
    ∀ i : ℕ,
      ((applyHelixTwist a th vs).getD i (0, 0, 0)).2.2 =
        (vs.getD i (0, 0, 0)).2.2 ∧
      ((applyHelixTwist a th vs).getD i (0, 0, 0)).1 ^ 2 +
          ((applyHelixTwist a th vs).getD i (0, 0, 0)).2.1 ^ 2 =
        (vs.getD i (0, 0, 0)).1 ^ 2 + (vs.getD i (0, 0, 0)).2.1 ^ 2 := by
  by_cases ha : a = 0
  · rw [applyHelixTwist, if_neg (by simp [ha])]
    exact ⟨fun _ => rfl, rfl, fun i => ⟨rfl, rfl⟩⟩
  · rw [applyHelixTwist, if_pos ha]
    refine ⟨fun h => absurd h ha, List.length_map _ _, fun i => ?_⟩
    rw [getD_map_of_fixed _ _ (twistVertex_zero_fixed a th)]
    exact ⟨twistVertex_z a th _, twistVertex_sq a th _⟩

/-- Witness for C10 on a one-vertex list with zero helix angle. -/
theorem helixTwist_rotation_witness :
    applyHelixTwist 0 1 [((1 : ℝ), 2, 3)] = [((1 : ℝ), 2, 3)] :=
  (helixTwist_rotation 0 1 [((1 : ℝ), 2, 3)]).1 rfl

/-- Claim C1, counterexample: when profile extrusion throws,
`generateGearGeometry` itself propagates the exception instead of returning
the cylinder fallback — the fallback lives in its caller. -/
theorem generateGearGeometry_propagates :
    generateGearGeometry extrudeFailOracle defaultGearParams =
      Except.error GeomError.invalidGeometryInput := rfl

/-- Claim C1 (amended): the `GearMesh` caller wraps `generateGearGeometry`
in a try/catch; on any exception it substitutes a cylinder of radius
`module·teeth/2` (the pitch radius) and height `thickness`, so the visual
pipeline always receives some mesh, while `generateGearGeometry` itself
propagates the failure. -/
theorem gearMeshGeometry_fallback (oc : FailureOracle) (p : GearParams) :
    (∀ g, generateGearGeometry oc p = Except.ok g → gearMeshGeometry oc p = g) ∧
    (∀ e, generateGearGeometry oc p = Except.error e →
      gearMeshGeometry oc p =
        Geometry.cylinder (p.module * (p.teethCount : ℚ) / 2)
          (p.module * (p.teethCount : ℚ) / 2) p.thickness 64) := by
  constructor
  · intro g hg
    unfold gearMeshGeometry
    rw [hg]
  · intro e he
    unfold gearMeshGeometry
    rw [he]

/-- Witness for C1's amended claim: the extrusion-failure run yields the
pitch-radius cylinder from the caller-side catch. -/
theorem gearMeshGeometry_fallback_witness :
    gearMeshGeometry extrudeFailOracle defaultGearParams =
      Geometry.cylinder
        (defaultGearParams.module * (defaultGearParams.teethCount : ℚ) / 2)
        (defaultGearParams.module * (defaultGearParams.teethCount : ℚ) / 2)
        defaultGearParams.thickness 64 :=
  (gearMeshGeometry_fallback extrudeFailOracle defaultGearParams).2
    GeomError.invalidGeometryInput rfl

/-- Claim C4 (code bug): when pass 2 reports an internal error, the worker
emits exactly one error event and no completion, but the message is built
from `rebuildResult1.error()` — the other pass's error value — instead of
pass 2's. -/
theorem pass2_error_uses_pass1_message :
    (repairMesh cx4Input).events =
      [Msg.progressMsg "Initializing MeshLib..." 0,
       Msg.progressMsg "Converting geometry..." 5,
       Msg.progressMsg "Finding holes..." 10,
       Msg.progressMsg "Preparing rebuild..." 20,
       Msg.errorMsg "Rebuild failed: pass1 stale value"] ∧
    "Rebuild failed: pass1 stale value" ≠
      "Rebuild failed: " ++ cx4Input.result2.errMsg := by
  constructor
  · decide
  · decide

/-- Claim C8, counterexample: on the fully successful run of a mesh with no
boundary loops, the hole-edge collection is created but its `delete()` is
never invoked. -/
theorem repair_release_cx :
    NativeObj.holeEdges ∈ (repairMesh cx8Input).created ∧
    NativeObj.holeEdges ∉ (repairMesh cx8Input).deleted := by
  decide

/-- Claim C8 (amended): on a fully successful repair in which at least one
boundary loop was detected, every native object created is also released;
(the counterexample shows the hole-edge collection leaks when no loop is
found, and a rebuild failure throws past the pending deletes). -/
theorem repair_release_success (inp : RepairInput)
    (h1 : inp.result1.hasError = false) (h2 : inp.result2.hasError = false)
    (hh : 0 < inp.holePerimeters.length) :
    ∀ o : NativeObj,
      o ∈ (repairMesh inp).created ↔ o ∈ (repairMesh inp).deleted := by
  intro o
  unfold repairMesh
  rw [h1, h2]
  by_cases hs : 0 < (smallHolesOf inp).length
  · simp only [if_pos hh, if_pos hs, Bool.false_eq_true, if_false]
    cases o <;> simp
  · simp only [if_pos hh, if_neg hs, Bool.false_eq_true, if_false]
    cases o <;> simp

/-- Witness for C8's amended claim: on a successful one-loop repair the
fill-parameter object is both created and released. -/
theorem repair_release_success_witness :
    NativeObj.fillParams ∈ (repairMesh wit8Input).created ↔
      NativeObj.fillParams ∈ (repairMesh wit8Input).deleted :=
  repair_release_success wit8Input rfl rfl (by decide) NativeObj.fillParams

lemma repair_filled_eq (inp : RepairInput) :
    (repairMesh inp).filled =
      if 0 < inp.holePerimeters.length ∧ 0 < (smallHolesOf inp).length
        then smallHolesOf inp else [] := by
  unfold repairMesh
  by_cases h1 : inp.result1.hasError
  · rw [if_pos h1]
  · rw [if_neg h1]
    by_cases h2 : inp.result2.hasError
    · rw [if_pos h2]
    · rw [if_neg h2]

/-- Claim C5 (confirmed): with boundary loops of perimeter `0.5×avg` and
`5×avg`, only the first is below `maxHolePerimeter = 3×avg` and only it is
passed to the fill call; the large loop survives repair. -/
theorem holeFill_selectivity (inp : RepairInput)
    (ha : 0 < inp.avgEdgeLength)
    (hp : inp.holePerimeters =
      [inp.avgEdgeLength * (1/2), inp.avgEdgeLength * 5]) :
    (repairMesh inp).filled = [inp.avgEdgeLength * (1/2)] ∧
    inp.avgEdgeLength * 5 ∉ (repairMesh inp).filled := by
  have hlt : inp.avgEdgeLength * (1/2) < inp.avgEdgeLength * 3 := by nlinarith
  have hge : ¬ (inp.avgEdgeLength * 5 < inp.avgEdgeLength * 3) := by nlinarith
  have hsmall : smallHolesOf inp = [inp.avgEdgeLength * (1/2)] := by
    rw [smallHolesOf, hp]
    simp only [List.filter_cons, List.filter_nil, decide_eq_true_eq]
    rw [if_pos hlt, if_neg hge]
  have hfill : (repairMesh inp).filled = [inp.avgEdgeLength * (1/2)] := by
    rw [repair_filled_eq, hsmall, hp]
    simp
  refine ⟨hfill, ?_⟩
  rw [hfill]
  intro hmem
  rcases List.mem_singleton.mp hmem with h
  nlinarith [h]

/-- Witness for C5 with `avg = 2` and loops of perimeter `1` and `10`. -/
theorem holeFill_selectivity_witness :
    (repairMesh wit5Input).filled = [wit5Input.avgEdgeLength * (1/2)] ∧
    wit5Input.avgEdgeLength * 5 ∉ (repairMesh wit5Input).filled :=
  holeFill_selectivity wit5Input (by norm_num [wit5Input]) (by norm_num [wit5Input])

/-- Claim C3 (amended): with no native failure, the bore is subtracted
exactly when a bore is requested and `boreDiameter` is strictly below
`1.9×` the inline root radius
`max(pitchRadius − (1.25+clearance)·module, module·0.5)` recomputed inside
`generateGearGeometry`; in particular `boreDiameter = 1.9×rootRadius` is
skipped (strict comparison), as is `1.91×rootRadius`. -/
theorem holeSubtraction_iff (p : GearParams) :
    containsSubtractionE (generateGearGeometry noFailure p) = true ↔
      (p.holeType ≠ HoleType.none ∧ 0 < p.boreDiameter ∧
        p.boreDiameter < holeCheckRootRadius p * (19/10)) := by
  unfold generateGearGeometry noFailure holeCheckRootRadius
  simp only []
  split_ifs with h1 h2 h3 <;>
    simp_all [containsSubtractionE, containsSubtraction]

/-- Witness for C3's amended claim at the default parameters (bore 8mm,
round hole): the subtraction is performed. -/
theorem holeSubtraction_iff_witness :
    containsSubtractionE (generateGearGeometry noFailure defaultGearParams) =
      true :=
  (holeSubtraction_iff defaultGearParams).mpr
    (by refine ⟨by decide, by norm_num [defaultGearParams], ?_⟩
        norm_num [defaultGearParams, holeCheckRootRadius])

/-- Claim C3, counterexample: at `teeth = 20, module = 1,
pressureAngle = 30°, clearance = 0.25, profileShift = 0`, the gear's root
radius is `8.5`; a bore of exactly `1.9 × 8.5` does NOT trigger hole
subtraction (the comparison is strict). -/
theorem holeSubtraction_boundary_cx :
    (calculateGearGeometryValues cx3Params).rootRadius = 17/2 ∧
    cx3Params.boreDiameter = (19/10) * (17/2) ∧
    containsSubtractionE (generateGearGeometry noFailure cx3Params) = false := by
  refine ⟨?_, by norm_num [cx3Params], ?_⟩
  · have hval : (calculateGearGeometryValues cx3Params).rootRadius =
        max (17/2) (10 * Real.cos ((30 : ℝ) * Real.pi / 180) * 0.95) := by
      simp only [calculateGearGeometryValues, cx3Params]
      norm_num
    rw [hval]
    have hang : (30 : ℝ) * Real.pi / 180 = Real.pi / 6 := by ring
    rw [hang, Real.cos_pi_div_six]
    have hsqrt : Real.sqrt 3 ≤ 34/19 := by
      nlinarith [Real.sq_sqrt (show (0:ℝ) ≤ 3 by norm_num), Real.sqrt_nonneg 3]
    rw [max_eq_left (by nlinarith [hsqrt])]
  · unfold generateGearGeometry noFailure
    have hcond : ¬ (cx3Params.boreDiameter <
        max (cx3Params.module * (cx3Params.teethCount : ℚ) / 2 -
          (125/100 + cx3Params.clearance) * cx3Params.module)
          (cx3Params.module * (1/2)) * (19/10)) := by
      norm_num [cx3Params]
    simp only [if_neg hcond]
    split_ifs <;> simp [containsSubtractionE, containsSubtraction]

/-- Claim C6, counterexample: at the documented minimum profile shift
`profileShift = −1` (with all other parameters at their defaults, inside
the claimed ranges) the addendum vanishes and `outerRadius = pitchRadius`,
so the strict chain fails. -/
theorem gearValues_chain_cx :
    (calculateGearGeometryValues cx6Params).outerRadius =
      (calculateGearGeometryValues cx6Params).pitchRadius := by
  simp only [calculateGearGeometryValues, cx6Params, defaultGearParams]
  norm_num

/-- Claim C6 (amended): within the documented ranges and with
`profileShift` strictly above −1 (at `profileShift = −1` the addendum is 0
and `outerRadius = pitchRadius`), the derived values satisfy
`outerRadius > pitchRadius > rootRadius > 0`, and
`outerDiameter = module × (teeth + 2 + 2×profileShift)` holds
unconditionally. -/
theorem gearGeometryValues_chain (p : GearParams)
    (ht : 4 ≤ p.teethCount)
    (hm0 : (3/10 : ℚ) ≤ p.module) (hm1 : p.module ≤ 25)
    (ha0 : (29/2 : ℚ) ≤ p.pressureAngle) (ha1 : p.pressureAngle ≤ 30)
    (hc0 : (1/20 : ℚ) ≤ p.clearance) (hc1 : p.clearance ≤ 1)
    (hs0 : (-1 : ℚ) < p.profileShift) (hs1 : p.profileShift ≤ 1) :
    ((calculateGearGeometryValues p).outerRadius >
        (calculateGearGeometryValues p).pitchRadius ∧
      (calculateGearGeometryValues p).pitchRadius >
        (calculateGearGeometryValues p).rootRadius ∧
      (calculateGearGeometryValues p).rootRadius > 0) ∧
    (calculateGearGeometryValues p).outerDiameter =
      (p.module : ℝ) * ((p.teethCount : ℝ) + 2 + 2 * (p.profileShift : ℝ)) := by
  have htR : (4 : ℝ) ≤ (p.teethCount : ℝ) := by exact_mod_cast ht
  have hmR : (3/10 : ℝ) ≤ (p.module : ℝ) := by
    have h2 := (Rat.cast_le (K := ℝ)).mpr hm0
    push_cast at h2
    exact h2
  have ha0R : (29/2 : ℝ) ≤ (p.pressureAngle : ℝ) := by
    have h2 := (Rat.cast_le (K := ℝ)).mpr ha0
    push_cast at h2
    exact h2
  have ha1R : (p.pressureAngle : ℝ) ≤ 30 := by exact_mod_cast ha1
  have hc0R : (1/20 : ℝ) ≤ (p.clearance : ℝ) := by
    have h2 := (Rat.cast_le (K := ℝ)).mpr hc0
    push_cast at h2
    exact h2
  have hs0R : (-1 : ℝ) < (p.profileShift : ℝ) := by exact_mod_cast hs0
  have hs1R : (p.profileShift : ℝ) ≤ 1 := by exact_mod_cast hs1
  have hpi := Real.pi_pos
  have hcos1 : Real.cos ((p.pressureAngle : ℝ) * Real.pi / 180) ≤ 1 :=
    Real.cos_le_one _
  have hcospos : 0 < Real.cos ((p.pressureAngle : ℝ) * Real.pi / 180) := by
    apply Real.cos_pos_of_mem_Ioo
    constructor
    · nlinarith
    · nlinarith
  have hpitch : 0 < (p.module : ℝ) * (p.teethCount : ℝ) / 2 := by nlinarith
  simp only [calculateGearGeometryValues]
  refine ⟨⟨by nlinarith, ?_, ?_⟩, by ring⟩
  · apply max_lt
    · nlinarith
    · nlinarith
  · apply lt_max_of_lt_right
    nlinarith

/-- Witness for C6's amended claim at the default parameters. -/
theorem gearGeometryValues_chain_witness :
    ((calculateGearGeometryValues defaultGearParams).outerRadius >
        (calculateGearGeometryValues defaultGearParams).pitchRadius ∧
      (calculateGearGeometryValues defaultGearParams).pitchRadius >
        (calculateGearGeometryValues defaultGearParams).rootRadius ∧
      (calculateGearGeometryValues defaultGearParams).rootRadius > 0) ∧
    (calculateGearGeometryValues defaultGearParams).outerDiameter =
      (defaultGearParams.module : ℝ) *
        ((defaultGearParams.teethCount : ℝ) + 2 +
          2 * (defaultGearParams.profileShift : ℝ)) :=
  gearGeometryValues_chain defaultGearParams
    (by norm_num [defaultGearParams]) (by norm_num [defaultGearParams])
    (by norm_num [defaultGearParams]) (by norm_num [defaultGearParams])
    (by norm_num [defaultGearParams]) (by norm_num [defaultGearParams])
    (by norm_num [defaultGearParams]) (by norm_num [defaultGearParams])
    (by norm_num [defaultGearParams])

lemma progressValues_append (l1 l2 : List Msg) :
    progressValues (l1 ++ l2) = progressValues l1 ++ progressValues l2 := by
  simp [progressValues]

lemma progressValues_map_progress (s : String) (f : ℚ → ℚ) (l : List ℚ) :
    progressValues (l.map (fun q => Msg.progressMsg s (f q))) = l.map f := by
  induction l with
  | nil => rfl
  | cons a t ih => simpa [progressValues] using ih

lemma progressValues_nil : progressValues [] = [] := rfl

lemma progressValues_cons_progress (s : String) (v : ℚ) (t : List Msg) :
    progressValues (Msg.progressMsg s v :: t) = v :: progressValues t := rfl

lemma progressValues_cons_error (s : String) (t : List Msg) :
    progressValues (Msg.errorMsg s :: t) = progressValues t := rfl

lemma progressValues_cons_complete (t : List Msg) :
    progressValues (Msg.completeMsg :: t) = progressValues t := rfl

lemma repair_progressValues (inp : RepairInput) :
    progressValues (repairMesh inp).events =
      [0, 5, 10] ++
      (if 0 < inp.holePerimeters.length ∧ 0 < (smallHolesOf inp).length
        then [15] else []) ++ [20] ++
      inp.pass1Progress.map pass1Percent ++
      (if inp.result1.hasError then []
       else inp.pass2Progress.map pass2Percent ++
         (if inp.result2.hasError then [] else [95])) := by
  unfold repairMesh
  by_cases h3 : 0 < inp.holePerimeters.length ∧ 0 < (smallHolesOf inp).length <;>
  by_cases h1 : inp.result1.hasError <;>
  by_cases h2 : inp.result2.hasError <;>
  simp only [h1, h2, h3, if_true, if_false, Bool.false_eq_true, ite_true,
    ite_false, progressValues_append, progressValues_map_progress,
    progressValues_nil, progressValues_cons_progress,
    progressValues_cons_error, progressValues_cons_complete,
    List.append_assoc, List.nil_append, List.append_nil,
    List.cons_append, List.singleton_append] <;>
  rfl

/-- Claim C2 (amended): every progress value emitted by a repair operation
lies in `[0, 100]`, and — provided each pass-1 engine report is at least
`0.25` (so that its remapped value does not fall below the fixed 20%
milestone that precedes it) and each pass's reports are non-decreasing in
`[0, 1]` — the whole progress stream is monotonically non-decreasing. -/
theorem repairProgress_bounds_monotone (inp : RepairInput)
    (hb1 : ∀ q ∈ inp.pass1Progress, (1/4 : ℚ) ≤ q ∧ q ≤ 1)
    (hm1 : inp.pass1Progress.Pairwise (· ≤ ·))
    (hb2 : ∀ q ∈ inp.pass2Progress, (0 : ℚ) ≤ q ∧ q ≤ 1)
    (hm2 : inp.pass2Progress.Pairwise (· ≤ ·)) :
    (∀ v ∈ progressValues (repairMesh inp).events, 0 ≤ v ∧ v ≤ 100) ∧
    (progressValues (repairMesh inp).events).Pairwise (· ≤ ·) := by
  rw [repair_progressValues]
  simp only [List.append_assoc]
  have hM1 : ∀ v ∈ inp.pass1Progress.map pass1Percent, 20 ≤ v ∧ v ≤ 50 := by
    intro v hv
    rcases List.mem_map.mp hv with ⟨q, hq, rfl⟩
    rcases hb1 q hq with ⟨hq1, hq2⟩
    unfold pass1Percent
    split_ifs with h <;> constructor <;> nlinarith
  have hM2 : ∀ v ∈ inp.pass2Progress.map pass2Percent, 50 ≤ v ∧ v ≤ 95 := by
    intro v hv
    rcases List.mem_map.mp hv with ⟨q, hq, rfl⟩
    rcases hb2 q hq with ⟨hq1, hq2⟩
    unfold pass2Percent
    constructor <;> nlinarith
  have hT : ∀ v ∈ (if inp.result1.hasError then []
      else inp.pass2Progress.map pass2Percent ++
        (if inp.result2.hasError then [] else [95])), 50 ≤ v ∧ v ≤ 95 := by
    split_ifs with h1 h2
    · intro v hv; simp at hv
    · intro v hv
      rw [List.append_nil] at hv
      exact hM2 v hv
    · intro v hv
      rcases List.mem_append.mp hv with hv | hv
      · exact hM2 v hv
      · rcases List.mem_singleton.mp hv with rfl
        norm_num
  have hB : ∀ v ∈ (if 0 < inp.holePerimeters.length ∧
      0 < (smallHolesOf inp).length then ([15] : List ℚ) else []), v = 15 := by
    split_ifs <;> intro v hv <;> simp at hv <;> exact hv
  have hM1p : (inp.pass1Progress.map pass1Percent).Pairwise (· ≤ ·) := by
    rw [List.pairwise_map]
    refine List.Pairwise.imp_of_mem ?_ hm1
    intro a b ha hb hab
    rcases hb1 a ha with ⟨ha1, ha2⟩
    rcases hb1 b hb with ⟨hb1', hb2'⟩
    unfold pass1Percent
    split_ifs with h h2 h3 <;> nlinarith
  have hM2p : (inp.pass2Progress.map pass2Percent).Pairwise (· ≤ ·) := by
    rw [List.pairwise_map]
    refine List.Pairwise.imp_of_mem ?_ hm2
    intro a b _ _ hab
    unfold pass2Percent
    nlinarith
  have hTp : (if inp.result1.hasError then []
      else inp.pass2Progress.map pass2Percent ++
        (if inp.result2.hasError then [] else [95])).Pairwise
        ((· ≤ ·) : ℚ → ℚ → Prop) := by
    split_ifs with h1 h2
    · exact List.Pairwise.nil
    · rw [List.append_nil]; exact hM2p
    · refine List.pairwise_append.mpr ⟨hM2p, by simp, ?_⟩
      intro x hx y hy
      rcases List.mem_singleton.mp hy with rfl
      exact (hM2 x hx).2
  constructor
  · intro v hv
    rcases List.mem_append.mp hv with hv | hv
    · have hv3 : v = 0 ∨ v = 5 ∨ v = 10 := by simpa using hv
      rcases hv3 with rfl | rfl | rfl <;> norm_num
    · rcases List.mem_append.mp hv with hv | hv
      · have := hB v hv; subst this; norm_num
      · rcases List.mem_append.mp hv with hv | hv
        · rcases List.mem_singleton.mp hv with rfl; norm_num
        · rcases List.mem_append.mp hv with hv | hv
          · rcases hM1 v hv with ⟨h1, h2⟩; constructor <;> linarith
          · rcases hT v hv with ⟨h1, h2⟩; constructor <;> linarith
  · refine List.pairwise_append.mpr ⟨by decide, ?_, ?_⟩
    · refine List.pairwise_append.mpr ⟨?_, ?_, ?_⟩
      · split_ifs <;> simp
      · refine List.pairwise_append.mpr ⟨by simp, ?_, ?_⟩
        · refine List.pairwise_append.mpr ⟨hM1p, hTp, ?_⟩
          intro x hx y hy
          exact le_trans (hM1 x hx).2 (hT y hy).1
        · intro x hx y hy
          rcases List.mem_singleton.mp hx with rfl
          rcases List.mem_append.mp hy with hy | hy
          · exact (hM1 y hy).1
          · linarith [(hT y hy).1]
      · intro x hx y hy
        have hx15 := hB x hx
        subst hx15
        rcases List.mem_append.mp hy with hy | hy
        · rcases List.mem_singleton.mp hy with rfl; norm_num
        · rcases List.mem_append.mp hy with hy | hy
          · linarith [(hM1 y hy).1]
          · linarith [(hT y hy).1]
    · intro x hx y hy
      have hx10 : x ≤ 10 := by
        have hx3 : x = 0 ∨ x = 5 ∨ x = 10 := by simpa using hx
        rcases hx3 with rfl | rfl | rfl <;> norm_num
      rcases List.mem_append.mp hy with hy | hy
      · have := hB y hy; subst this; linarith
      · rcases List.mem_append.mp hy with hy | hy
        · rcases List.mem_singleton.mp hy with rfl; linarith
        · rcases List.mem_append.mp hy with hy | hy
          · linarith [(hM1 y hy).1]
          · linarith [(hT y hy).1]

/-- Claim C2, counterexample: a successful hole-free repair in which the
pass-1 engine first reports progress `0.1` emits the stream
`0, 5, 10, 20, 8, 95, 95` — the remapped `8` follows the fixed `20`
milestone, so the stream is not monotonically non-decreasing. -/
theorem repairProgress_not_monotone_cx :
    ¬ (progressValues (repairMesh cx2Input).events).Pairwise
      ((· ≤ ·) : ℚ → ℚ → Prop) := by
  have hlist : progressValues (repairMesh cx2Input).events =
      [0, 5, 10, 20, 8, 95, 95] := by
    rw [repair_progressValues]
    norm_num [cx2Input, smallHolesOf, pass1Percent, pass2Percent]
  rw [hlist]
  decide

/-- Witness for C2's amended claim: a run with engine reports
`0.25, 0.5, 1` (pass 1) and `0, 1` (pass 2) satisfies both bounds and
monotonicity; the stream's fifth element is the remapped first pass-1
report. -/
theorem repairProgress_bounds_monotone_witness :
    (∀ v ∈ progressValues (repairMesh wit2Input).events, 0 ≤ v ∧ v ≤ 100) ∧
    (progressValues (repairMesh wit2Input).events).Pairwise (· ≤ ·) :=
  repairProgress_bounds_monotone wit2Input
    (by intro q hq; simp [wit2Input] at hq; rcases hq with rfl | rfl | rfl <;> norm_num)
    (by simp [wit2Input]; norm_num)
    (by intro q hq; simp [wit2Input] at hq; rcases hq with rfl | rfl <;> norm_num)
    (by simp [wit2Input])

lemma flat3_length (l : List (ℕ × ℕ × ℕ)) :
    (l.flatMap (fun t => [t.1, t.2.1, t.2.2])).length = l.length * 3 := by
  induction l with
  | nil => rfl
  | cons a t ih => simp [ih]; ring

lemma headerSection_length : headerSection.length = 80 := by decide

lemma triRecord_length (enc : ℝ → Fin 4 → ℕ) (vertices : List ℝ)
    (indices : List ℕ) (i : ℕ) :
    (triRecord enc vertices indices i).length = 50 := rfl

lemma triRecord_drop48 (enc : ℝ → Fin 4 → ℕ) (vertices : List ℝ)
    (indices : List ℕ) (i : ℕ) :
    (triRecord enc vertices indices i).drop 48 = [0, 0] := rfl

lemma flatten_const_length (L : List (List ℕ)) (h : ∀ r ∈ L, r.length = 50) :
    L.flatten.length = 50 * L.length := by
  induction L with
  | nil => rfl
  | cons r rest ih =>
    rw [List.flatten_cons, List.length_append, h r (List.mem_cons_self r rest),
      ih (fun x hx => h x (List.mem_cons_of_mem r hx))]
    simp [Nat.mul_succ]
    omega

lemma flatten_attr (L : List (List ℕ))
    (h : ∀ r ∈ L, r.length = 50 ∧ r.drop 48 = [0, 0]) :
    ∀ i, i < L.length → ((L.flatten.drop (50 * i + 48)).take 2) = [0, 0] := by
  induction L with
  | nil => intro i hi; simp at hi
  | cons r rest ih =>
    intro i hi
    rcases h r (List.mem_cons_self r rest) with ⟨hr50, hr48⟩
    rw [List.flatten_cons]
    cases i with
    | zero =>
      rw [Nat.mul_zero, Nat.zero_add, List.drop_append_eq_append_drop, hr48,
        hr50]
      norm_num
    | succ j =>
      have hsplit : 50 * (j + 1) + 48 = r.length + (50 * j + 48) := by
        rw [hr50]; ring
      rw [hsplit, List.drop_append]
      exact ih (fun x hx => h x (List.mem_cons_of_mem r hx)) j
        (by simpa using hi)

/-- Claim C9 (confirmed): the extracted index buffer has
`triangleCount × 3` entries, and the binary STL of the extracted buffers is
exactly `84 + 50 × triangleCount` bytes, each triangle record ending in the
2-byte attribute field written as `0`. -/
theorem stl_roundtrip (enc : ℝ → Fin 4 → ℕ) (m : MLMesh) :
    (extractMeshData m).2.length = m.tris.length * 3 ∧
    (createBinarySTL enc (extractMeshData m).1 (extractMeshData m).2).length =
      84 + 50 * m.tris.length ∧
    ∀ i, i < m.tris.length →
      ((createBinarySTL enc (extractMeshData m).1 (extractMeshData m).2).drop
          (84 + 50 * i + 48)).take 2 = [0, 0] := by
  have hlen : (extractMeshData m).2.length = m.tris.length * 3 :=
    flat3_length m.tris
  have hcount : (extractMeshData m).2.length / 3 = m.tris.length := by
    rw [hlen]
    omega
  have hrec : ∀ r ∈ (List.range m.tris.length).map
      (triRecord enc (extractMeshData m).1 (extractMeshData m).2),
      r.length = 50 ∧ r.drop 48 = [0, 0] := by
    intro r hr
    rcases List.mem_map.mp hr with ⟨j, _, rfl⟩
    exact ⟨triRecord_length _ _ _ _, triRecord_drop48 _ _ _ _⟩
  refine ⟨hlen, ?_, ?_⟩
  · unfold createBinarySTL
    rw [hcount, List.length_append, List.length_append, headerSection_length,
      flatten_const_length _ (fun r hr => (hrec r hr).1)]
    simp [u32le]
  · intro i hi
    unfold createBinarySTL
    dsimp only
    rw [hcount]
    have hpre : (headerSection ++ u32le m.tris.length).length = 84 := by
      rw [List.length_append, headerSection_length]
      rfl
    have hsplit : 84 + 50 * i + 48 =
        (headerSection ++ u32le m.tris.length).length + (50 * i + 48) := by
      rw [hpre]
      ring
    rw [hsplit, List.drop_append]
    exact flatten_attr _ hrec i (by simpa using hi)

/-- Witness for C9 on a one-triangle mesh with a trivial byte encoding. -/
theorem stl_roundtrip_witness :
    (extractMeshData witMesh).2.length = witMesh.tris.length * 3 ∧
    (createBinarySTL zeroEnc (extractMeshData witMesh).1
        (extractMeshData witMesh).2).length = 84 + 50 * witMesh.tris.length ∧
    ∀ i, i < witMesh.tris.length →
      ((createBinarySTL zeroEnc (extractMeshData witMesh).1
          (extractMeshData witMesh).2).drop (84 + 50 * i + 48)).take 2 =
        [0, 0] :=
  stl_roundtrip zeroEnc witMesh
